import Mathlib

/-!
Verification of the IELTS mock-speaking exam engine: the exam dialogue state
machine (`transcript_confirm` / `session_finish` in `main.py`) and the
linguistic scoring engine (`scoring.py`), shallowly embedded.  Machine floats
are modelled by `ℚ`; Python strings by `String` (character-list model);
regex token extraction `[a-zA-Z']+` by maximal runs of the corresponding
character class.
-/

/-- Character class of the regex `[a-zA-Z']+` used for word tokens. -/
def isWordChar (c : Char) : Bool := c.isAlpha || c = Char.ofNat 39

/-- Maximal runs of characters satisfying `p` (the `cur` accumulator holds the
current run reversed), modelling `re.findall` of a character-class regex. -/
def runsBy (p : Char → Bool) : List Char → List Char → List (List Char)
  | [], cur => if cur.isEmpty then [] else [cur.reverse]
  | c :: cs, cur =>
    if p c then runsBy p cs (c :: cur)
    else if cur.isEmpty then runsBy p cs []
    else cur.reverse :: runsBy p cs []

/-- `re.findall(r"[a-zA-Z']+", text)`: the word-like tokens of a text. -/
def findTokens (text : String) : List String :=
  (runsBy isWordChar text.data []).map List.asString

/-- Maximal runs of regex word characters `\w` (ASCII fragment), used to model
`\b`-delimited whole-word matches: a `\b`-bounded match of an alphabetic
alternative is exactly a maximal `\w`-run equal to it. -/
def wordRuns (text : String) : List String :=
  (runsBy (fun c => c.isAlphanum || c = '_') text.data []).map List.asString

/-- Python `s.endswith(t)`. -/
def strEndsWith (s t : String) : Bool := List.isSuffixOf t.data s.data

/-- Python `s.lower()` (ASCII fragment, matching the `[a-zA-Z]` tokens the
code extracts). -/
def strToLower (s : String) : String := (s.data.map Char.toLower).asString

/-- Python `s.strip()`. -/
def strTrim (s : String) : String :=
  (((s.data.dropWhile Char.isWhitespace).reverse.dropWhile Char.isWhitespace).reverse).asString

/-- Python `s.count(pat)` for a non-empty `pat`: non-overlapping occurrences,
scanning left to right.  The fuel argument (instantiated with `s.length`,
which bounds the number of scanning steps) keeps the recursion structural. -/
def countOccsAux (pat : List Char) : ℕ → List Char → ℕ
  | 0, _ => 0
  | _ + 1, [] => 0
  | fuel + 1, c :: rest =>
    if pat.isPrefixOf (c :: rest) then
      1 + countOccsAux pat fuel (rest.drop (pat.length - 1))
    else countOccsAux pat fuel rest

/-- Python `s.count(pat)` for a non-empty `pat`. -/
def countOccs (pat : List Char) (s : List Char) : ℕ := countOccsAux pat s.length s

/-- Insertion into a `le`-sorted list. -/
def insertSorted (le : α → α → Bool) (x : α) : List α → List α
  | [] => [x]
  | y :: ys => if le x y then x :: y :: ys else y :: insertSorted le x ys

/-- Insertion sort by a boolean `le`; realises Python's `sorted` whenever the
sort key is injective, as it is below. -/
def sortByLe (le : α → α → Bool) : List α → List α
  | [] => []
  | x :: xs => insertSorted le x (sortByLe le xs)

/-- Stop-word list of `extract_keywords` in `main.py`. -/
def KW_STOP : List String :=
  ["i", "me", "my", "we", "our", "ours", "ourselves", "you", "your", "yours",
   "yourself", "yourselves", "he", "him", "his", "she", "her", "it", "its",
   "they", "them", "their", "what", "which", "who", "whom", "this", "that",
   "these", "those", "am", "is", "are", "was", "were", "be", "been", "being",
   "have", "has", "had", "do", "does", "did", "a", "an", "the", "and", "but",
   "if", "or", "because", "as", "until", "while", "of", "at", "by", "for",
   "with", "about", "against", "between", "into", "through", "during",
   "before", "after", "above", "below", "to", "from", "up", "down", "in",
   "out", "on", "off", "over", "under", "again", "further", "then", "once",
   "here", "there", "when", "where", "why", "how", "all", "any", "both",
   "each", "few", "more", "most", "other", "some", "such", "no", "nor",
   "not", "only", "own", "same", "so", "than", "too", "very", "can", "will",
   "just", "should", "now"]

/-- `extract_keywords(text, k)` from `main.py`: lower-case, keep word tokens of
length at least 4 that are not stop-words, count frequencies, sort by
(descending frequency, ascending token) and take the first `k`.  The sort key
is injective on the distinct words, so any correct sort realises Python's
`sorted`. -/
def extract_keywords (text : String) (k : ℕ := 5) : List String :=
  let words := findTokens (strToLower text)
  let kept := words.filter (fun w => 4 ≤ w.length && !(KW_STOP.contains w))
  let pairs := kept.eraseDups.map (fun w => (w, kept.count w))
  let sorted := sortByLe
    (fun a b => decide (b.2 < a.2) || ((a.2 == b.2) && !decide (b.1 < a.1))) pairs
  (sorted.take k).map Prod.fst

/-- Stop-word list `STOPWORDS` of `scoring.py`. -/
def STOPWORDS : List String :=
  ["i", "me", "my", "myself", "we", "our", "ours", "ourselves", "you", "your",
   "yours", "yourself", "yourselves", "he", "him", "his", "himself", "she",
   "her", "hers", "herself", "it", "its", "itself", "they", "them", "their",
   "theirs", "themselves", "what", "which", "who", "whom", "this", "that",
   "these", "those", "am", "is", "are", "was", "were", "be", "been", "being",
   "have", "has", "had", "having", "do", "does", "did", "doing", "a", "an",
   "the", "and", "but", "if", "or", "because", "as", "until", "while", "of",
   "at", "by", "for", "with", "about", "against", "between", "into",
   "through", "during", "before", "after", "above", "below", "to", "from",
   "up", "down", "in", "out", "on", "off", "over", "under", "again",
   "further", "then", "once", "here", "there", "when", "where", "why", "how",
   "all", "any", "both", "each", "few", "more", "most", "other", "some",
   "such", "no", "nor", "not", "only", "own", "same", "so", "than", "too",
   "very", "s", "t", "can", "will", "just", "don", "don", "should", "now"]

/-- Filler-phrase set `FILLERS` of `scoring.py`. -/
def FILLERS : List String :=
  ["uh", "um", "erm", "like", "you know", "i mean", "sort of", "kind of", "well"]

/-- Subordinating/relative clause markers counted for `clause_variety`. -/
def CLAUSE_MARKERS : List String :=
  ["when", "while", "because", "although", "though", "which", "that", "who",
   "where", "if", "unless", "until", "since", "after", "before"]

/-- Common verb forms of the `verbish` regex in `scoring.py`. -/
def VERB_FORMS : List String :=
  ["am", "is", "are", "was", "were", "be", "been", "being", "do", "does",
   "did", "have", "has", "had", "go", "goes", "went", "gone", "make",
   "makes", "made", "say", "says", "said", "think", "thinks", "thought",
   "feel", "feels", "felt", "want", "wants", "wanted", "need", "needs",
   "needed", "can", "could", "will", "would", "shall", "should", "may",
   "might", "must"]

/-- `tokenize` from `scoring.py`. -/
def tokenize (text : String) : List String := findTokens (strToLower text)

/-- The sentences of a text: split on runs of `.!?`, strip, drop empties
(`re.split(r"[.!?]+", text)` followed by the strip-and-filter). -/
def sentencesOf (text : String) : List String :=
  ((runsBy (fun c => !(c = '.' || c = '!' || c = '?')) text.data []).map
    (fun l => strTrim (List.asString l))).filter (fun s => !(s == ""))

@[ext] structure Metrics where
  wpm : ℚ
  filler_ratio : ℚ
  pause_rate : ℚ
  ttr : ℚ
  repetition : ℚ
  grammar_err_rate : ℚ
  clause_variety : ℚ
deriving DecidableEq

/-- The epsilon-floored minutes denominator `max(1e-6, speech_ms/60000.0)`. -/
def minutesFloor (speech_ms : ℤ) : ℚ := max (1/1000000) ((speech_ms : ℚ) / 60000)

/-- The epsilon-floored total-time denominator `max(1e-6, speech_ms+pauses_ms)`. -/
def timeTotalFloor (speech_ms pauses_ms : ℤ) : ℚ :=
  max (1/1000000) (((speech_ms + pauses_ms : ℤ) : ℚ))

/-- `metrics_from_text_and_times` from `scoring.py`. -/
def metrics_from_text_and_times (text : String) (speech_ms pauses_ms : ℤ) : Metrics :=
  let words := tokenize text
  let n_words := words.length
  let wpm := (n_words : ℚ) / minutesFloor speech_ms
  let padded := " " ++ strToLower text ++ " "
  let filler_count :=
    (FILLERS.map (fun f => countOccs (" " ++ f ++ " ").data padded.data)).sum
  let filler_ratio := (filler_count : ℚ) / (max 1 n_words : ℕ)
  let pause_rate := (pauses_ms : ℚ) / timeTotalFloor speech_ms pauses_ms
  let content_words := words.filter (fun w => !(STOPWORDS.contains w))
  let uniq := content_words.eraseDups.length
  let ttr := (uniq : ℚ) / (max 1 content_words.length : ℕ)
  let bigrams := words.zip words.tail
  let rep : ℚ :=
    if bigrams.isEmpty then 0
    else ((bigrams.eraseDups.map (fun b =>
      let c := bigrams.count b
      if 1 < c then (c : ℚ) else 0)).sum) / (bigrams.length : ℚ)
  let sents := sentencesOf text
  let clause_markers :=
    (sents.map (fun s =>
      ((wordRuns (strToLower s)).filter (fun w => CLAUSE_MARKERS.contains w)).length)).sum
  let clause_variety := (clause_markers : ℚ) / (max 1 sents.length : ℕ)
  let bad := (sents.filter (fun s =>
    ((wordRuns (strToLower s)).filter (fun w => VERB_FORMS.contains w)).isEmpty)).length
  let grammar_err_rate := (bad : ℚ) / (max 1 sents.length : ℕ)
  { wpm := wpm
    filler_ratio := min 1 filler_ratio
    pause_rate := min 1 pause_rate
    ttr := min 1 ttr
    repetition := min 1 rep
    grammar_err_rate := min 1 grammar_err_rate
    clause_variety := clause_variety }

/-- `clamp(x, lo, hi)` from `scoring.py`. -/
def clamp (x lo hi : ℚ) : ℚ := max lo (min hi x)

/-- Python's built-in `round` (round half to even) on a rational. -/
def roundHalfEven (y : ℚ) : ℤ :=
  if y - (⌊y⌋ : ℚ) < 1/2 then ⌊y⌋
  else if 1/2 < y - (⌊y⌋ : ℚ) then ⌊y⌋ + 1
  else if ⌊y⌋ % 2 = 0 then ⌊y⌋ else ⌊y⌋ + 1

/-- `to_half(x) = round(x*2)/2` from `bands_from_metrics`. -/
def to_half (x : ℚ) : ℚ := (roundHalfEven (x * 2) : ℚ) / 2

structure Bands where
  fluency : ℚ
  lexical_resource : ℚ
  grammar_range_accuracy : ℚ
  pronunciation : ℚ
  overall : ℚ
deriving DecidableEq

/-- `bands_from_metrics` from `scoring.py`. -/
def bands_from_metrics (m : Metrics) (asr_conf rate_stability : ℚ) : Bands :=
  let fluency := clamp (9 - (Metrics.pause_rate m * 3 + Metrics.filler_ratio m * 4)) 1 9
  let lexis := clamp (5 + Metrics.ttr m * 6 - Metrics.repetition m * 2) 1 9
  let grammar := clamp (6 - Metrics.grammar_err_rate m * 8 + Metrics.clause_variety m * 2) 1 9
  let pron := clamp (5 + asr_conf * 3 + rate_stability * 2) 1 9
  let f := to_half fluency
  let l := to_half lexis
  let g := to_half grammar
  let p := to_half pron
  { fluency := f
    lexical_resource := l
    grammar_range_accuracy := g
    pronunciation := p
    overall := to_half ((f + l + g + p) / 4) }

structure Card where
  topic : String
  prompt : String
  follow_up : String
deriving DecidableEq

structure Theme where
  theme : String
  questions : List String
deriving DecidableEq

structure P1Question where
  text : String
  topic : String
deriving DecidableEq

/-- A confirmed turn as appended to `sess["turns"]`. -/
structure Turn where
  part : ℤ
  qid : String
  transcript : String
  duration_ms : ℤ
deriving DecidableEq

/-- An exam session, the value stored in `SESSIONS`. -/
structure Session where
  id : String
  user_id : String
  part : ℤ
  p1_idx : ℕ
  p1_qs : List P1Question
  p2_card : Card
  p2_spoke : Bool
  p3_theme : Theme
  p3_idx : ℕ
  turns : List Turn
deriving DecidableEq

/-- The JSON payload of a `/api/transcript/confirm` request. -/
structure Payload where
  session_id : String
  part : ℤ
  question_id : String
  transcript : String
  duration_ms : ℤ
deriving DecidableEq

/-- The `result` object built by `session_finish`. -/
structure FinishResult where
  overall : ℚ
  fluency : ℚ
  lexical_resource : ℚ
  grammar_range_accuracy : ℚ
  pronunciation : ℚ
  summary : String
  recommendation : String
deriving DecidableEq

/-- The possible JSON responses of the confirm/finish endpoints. -/
inductive Response where
  | nextQuestion (part : ℤ) (question_id : String) (text : String)
  | part2Intro (instruction : String) (cue_card : String)
      (prep_seconds : ℕ) (speak_seconds : ℕ)
  | part3Opener (instruction : String) (part : ℤ) (question_id : String) (text : String)
  | finish (result : FinishResult)
  | statusOk
  | sessionNotFound
deriving DecidableEq

/-- Whether a response is the "session not found" error. -/
def Response.isNotFoundError : Response → Bool
  | .sessionNotFound => true
  | _ => false

/-- The fixed Part-1 follow-up prompt text of `transcript_confirm`. -/
def followUpText : String :=
  "Could you tell me a bit more about that? For example, why is it important to you in your daily life?"

/-- The fixed Part-2 instruction text of `transcript_confirm`. -/
def part2Prep : String :=
  "Now, Part 2. I will give you a topic, and you will have one minute to prepare and then speak for one to two minutes."

/-- The fixed recommendation string of `session_finish`. -/
def recommendationText : String :=
  "Focus on extending answers with supporting details, vary vocabulary with precise terms, and practice complex sentences while maintaining clear rhythm."

/-- The four-sentence narrative summary of `session_finish`. -/
def summaryText (bands : Bands) : String :=
  (if 13/2 ≤ Bands.fluency bands then
    "Fluency: You spoke at a steady pace with generally coherent development; fillers and pauses did not impede communication."
  else
    "Fluency: Pace and pausing sometimes disrupted flow; aim to extend answers and reduce fillers for smoother delivery.")
  ++ " " ++
  (if 13/2 ≤ Bands.lexical_resource bands then
    "Lexical resource: Good range with appropriate word choice; limited repetition and some topic-specific vocabulary."
  else
    "Lexical resource: Range was somewhat limited with repetition; try to vary expressions and use more precise terms.")
  ++ " " ++
  (if 13/2 ≤ Bands.grammar_range_accuracy bands then
    "Grammar: Mostly accurate with a mix of simple and some complex structures; few errors affecting meaning."
  else
    "Grammar: Frequent basic errors and limited variety; practice complex sentences and check subject–verb agreement.")
  ++ " " ++
  (if 13/2 ≤ Bands.pronunciation bands then
    "Pronunciation: Generally clear with understandable rhythm; minor issues did not reduce intelligibility."
  else
    "Pronunciation: Clarity and rhythm varied; work on connected speech and reduce hesitations.")

/-- The scoring tail of `session_finish`: concatenate all transcripts, sum all
durations, compute metrics (pauses fixed at 0) and bands with the constant
`asr_conf = rate_stability = 0.7`, and assemble the result object. -/
def finishResultOf (sess : Session) : FinishResult :=
  let all_text := strTrim (String.intercalate " " (sess.turns.map Turn.transcript))
  let total_speech_ms := (sess.turns.map Turn.duration_ms).sum
  let m := metrics_from_text_and_times all_text total_speech_ms 0
  let bands := bands_from_metrics m (7/10) (7/10)
  { overall := Bands.overall bands
    fluency := Bands.fluency bands
    lexical_resource := Bands.lexical_resource bands
    grammar_range_accuracy := Bands.grammar_range_accuracy bands
    pronunciation := Bands.pronunciation bands
    summary := summaryText bands
    recommendation := recommendationText }

/-- The session-level body of `transcript_confirm` (`main.py` lines 107-151):
append the turn, then branch on the client-supplied `part`.  Returns the
mutated session (what `SESSIONS[sid]` holds afterwards) and the JSON
response. -/
def confirmSession (sess : Session) (p : Payload) : Session × Response :=
  let text := strTrim p.transcript
  let sess1 := { sess with turns := sess.turns ++ [⟨p.part, p.question_id, text, p.duration_ms⟩] }
  if p.part = 1 then
    let words := (findTokens text).length
    let too_short := words < 35 ∨ p.duration_ms < 12000
    let idx := sess1.p1_idx
    if too_short ∧ strEndsWith p.question_id "_f" = false then
      (sess1, Response.nextQuestion 1 ("p1_" ++ toString idx ++ "_f") followUpText)
    else
      let sess2 := { sess1 with p1_idx := sess1.p1_idx + 1 }
      if h : sess2.p1_idx < sess2.p1_qs.length then
        (sess2, Response.nextQuestion 1 ("p1_" ++ toString sess2.p1_idx)
          (sess2.p1_qs.get ⟨sess2.p1_idx, h⟩).text)
      else
        let sess3 := { sess2 with part := 2 }
        (sess3, Response.part2Intro part2Prep sess3.p2_card.prompt 60 120)
  else if p.part = 2 then
    if sess1.p2_spoke = false then
      ({ sess1 with p2_spoke := true },
        Response.nextQuestion 2 "p2_follow" sess1.p2_card.follow_up)
    else
      let sess2 := { sess1 with part := 3 }
      let p2_texts := (sess2.turns.filter (fun t => t.part == 2)).map Turn.transcript
      let kw := extract_keywords (String.intercalate " " p2_texts) 5
      let opener := "Now let\x27s talk about some broader issues related to "
        ++ String.intercalate ", " (kw.take 2) ++ "."
      (sess2, Response.part3Opener opener 3 "p3_0" (sess2.p3_theme.questions.getD 0 ""))
  else if p.part = 3 then
    let sess2 := { sess1 with p3_idx := sess1.p3_idx + 1 }
    if h : sess2.p3_idx < sess2.p3_theme.questions.length then
      (sess2, Response.nextQuestion 3 ("p3_" ++ toString sess2.p3_idx)
        (sess2.p3_theme.questions.get ⟨sess2.p3_idx, h⟩))
    else
      (sess2, Response.finish (finishResultOf sess2))
  else (sess1, Response.statusOk)

/-- The process-wide `SESSIONS` mapping. -/
def Store : Type := String → Option Session

/-- Endpoint `/api/transcript/confirm`: look the session up; unknown ids get
the 404 error and leave the store untouched; otherwise run the session body,
whose in-place mutation is the store update. -/
def transcript_confirm (store : Store) (p : Payload) : Store × Response :=
  match store p.session_id with
  | none => (store, Response.sessionNotFound)
  | some sess =>
    let sr := confirmSession sess p
    (Function.update store p.session_id (some sr.1), sr.2)

/-- Endpoint `/api/session/finish`: unknown ids get the 404 error; otherwise
the result object is computed without mutating any session. -/
def session_finish (store : Store) (sid : String) : Store × Response :=
  match store sid with
  | none => (store, Response.sessionNotFound)
  | some sess => (store, Response.finish (finishResultOf sess))

/-- A Part-2 cue card as in `PART2_CARDS`. -/
def cardEx : Card :=
  { topic := "A market you have visited"
    prompt := "Describe a market you have visited. You should say: where it is, when you went there, what you bought, and explain how you felt about the place."
    follow_up := "Do you think traditional markets will continue to be popular in the future?" }

/-- A Part-3 theme as in `PART3_THEMES`. -/
def themeEx : Theme :=
  { theme := "Lifestyle and tradition"
    questions :=
      ["How do traditional markets influence community life?",
       "What are the advantages and disadvantages of modern supermarkets?",
       "How should cities balance tradition and modernization?"] }

/-- A nine-question Part-1 list, as produced by `new_session` (3 topics of 3
questions each). -/
def p1qsEx : List P1Question :=
  [⟨"Do you live in a house or an apartment?", "home"⟩,
   ⟨"What do you like most about your home?", "home"⟩,
   ⟨"Is there anything you would like to change about your home?", "home"⟩,
   ⟨"Do you work or are you a student?", "work_study"⟩,
   ⟨"Why did you choose your field?", "work_study"⟩,
   ⟨"What do you find most interesting about it?", "work_study"⟩,
   ⟨"What do you like to do in your free time?", "hobbies"⟩,
   ⟨"How long have you had this hobby?", "hobbies"⟩,
   ⟨"Do you prefer to do it alone or with others?", "hobbies"⟩]

/-- A freshly started session (part 1, cursor 0), as `new_session` returns. -/
def sessEx1 : Session :=
  { id := "s1", user_id := "u1", part := 1, p1_idx := 0, p1_qs := p1qsEx,
    p2_card := cardEx, p2_spoke := false, p3_theme := themeEx, p3_idx := 0, turns := [] }

/-- A session that has progressed to Part 3 (Part-1 list exhausted, cue card
answered). -/
def sessEx3 : Session :=
  { id := "s1", user_id := "u1", part := 3, p1_idx := 9, p1_qs := p1qsEx,
    p2_card := cardEx, p2_spoke := true, p3_theme := themeEx, p3_idx := 0, turns := [] }

/-- A too-short Part-1 answer to the base question `p1_0`. -/
def pEx1 : Payload := ⟨"s1", 1, "p1_0", "short answer", 3000⟩

/-- A (still short) answer to the follow-up question `p1_0_f`. -/
def pEx2 : Payload := ⟨"s1", 1, "p1_0_f", "", 0⟩

/-- A stale Part-1 payload replayed against a session already in Part 3. -/
def pEx3 : Payload := ⟨"s1", 1, "p1_9_f", "", 0⟩

/-- The empty session store. -/
def storeEmpty : Store := fun _ => none

lemma getLast?_cons (d : Char) (ds : List Char) :
    (d :: ds).getLast? = if ds = [] then some d else ds.getLast? := by
  cases ds with
  | nil => rfl
  | cons a as => simp [List.getLast?_cons_cons]

lemma toDigitsCore_getLast (fuel n : ℕ) (ds : List Char) :
    (Nat.toDigitsCore 10 (fuel + 1) n ds).getLast? =
      if ds = [] then some (Nat.digitChar (n % 10)) else ds.getLast? := by
  induction fuel generalizing n ds with
  | zero =>
    show (if n / 10 = 0 then _ else Nat.toDigitsCore 10 0 (n / 10) _).getLast? = _
    split
    · exact getLast?_cons _ _
    · exact getLast?_cons _ _
  | succ fuel ih =>
    show (if n / 10 = 0 then _ else Nat.toDigitsCore 10 (fuel + 1) (n / 10) _).getLast? = _
    split
    · exact getLast?_cons _ _
    · rw [ih]
      simp [getLast?_cons]

lemma repr_data_getLast (n : ℕ) :
    (Nat.repr n).data.getLast? = some (Nat.digitChar (n % 10)) := by
  show (Nat.toDigitsCore 10 (n + 1) n []).getLast? = _
  rw [toDigitsCore_getLast]
  rfl

lemma digitChar_ne_f : ∀ r : ℕ, r < 10 → Nat.digitChar r ≠ 'f' := by decide

lemma strEndsWith_append_uf (s : String) : strEndsWith (s ++ "_f") "_f" = true := by
  show List.isSuffixOf ['_', 'f'] (s ++ "_f").data = true
  rw [String.data_append]
  exact List.isSuffixOf_iff_suffix.mpr ⟨s.data, rfl⟩

lemma p1_qid_no_marker (n : ℕ) : strEndsWith ("p1_" ++ toString n) "_f" = false := by
  by_contra h
  rw [Bool.not_eq_false] at h
  have hsuf : ['_', 'f'] <:+ ("p1_" ++ toString n).data := List.isSuffixOf_iff_suffix.mp h
  obtain ⟨t, ht⟩ := hsuf
  have h1 : ("p1_" ++ toString n).data.getLast? = some 'f' := by
    rw [← ht, List.getLast?_append]; rfl
  have h2 : ("p1_" ++ toString n).data.getLast? = some (Nat.digitChar (n % 10)) := by
    rw [String.data_append, List.getLast?_append,
      show (toString n : String) = Nat.repr n from rfl, repr_data_getLast]; rfl
  rw [h1] at h2
  exact digitChar_ne_f (n % 10) (Nat.mod_lt n (by norm_num)) (Option.some.inj h2.symm)

lemma p1_qid_ne (m n : ℕ) : ("p1_" ++ toString m : String) ≠ "p1_" ++ toString n ++ "_f" := by
  intro h
  have h1 : ("p1_" ++ toString m).data.getLast? = some (Nat.digitChar (m % 10)) := by
    rw [String.data_append, List.getLast?_append,
      show (toString m : String) = Nat.repr m from rfl, repr_data_getLast]; rfl
  have h2 : ("p1_" ++ toString n ++ "_f").data.getLast? = some 'f' := by
    rw [String.data_append, List.getLast?_append]; rfl
  rw [h, h2] at h1
  exact digitChar_ne_f (m % 10) (Nat.mod_lt m (by norm_num)) (Option.some.inj h1).symm

lemma roundHalfEven_close (y : ℚ) : |(roundHalfEven y : ℚ) - y| ≤ 1/2 := by
  have h0 : ((⌊y⌋ : ℤ) : ℚ) ≤ y := Int.floor_le y
  have h1 : y < (⌊y⌋ : ℚ) + 1 := Int.lt_floor_add_one y
  unfold roundHalfEven
  split_ifs with hf1 hf2 hf3 <;> rw [abs_le] <;> push_cast <;> constructor <;> linarith

lemma roundHalfEven_bounds (y : ℚ) (lo hi : ℤ) (hlo : (lo : ℚ) ≤ y) (hhi : y ≤ (hi : ℚ)) :
    lo ≤ roundHalfEven y ∧ roundHalfEven y ≤ hi := by
  have h0 : ((⌊y⌋ : ℤ) : ℚ) ≤ y := Int.floor_le y
  have h1 : y < (⌊y⌋ : ℚ) + 1 := Int.lt_floor_add_one y
  have hfl : lo ≤ ⌊y⌋ := Int.le_floor.mpr hlo
  have hfh : ⌊y⌋ ≤ hi := by
    have := Int.floor_le_floor hhi
    rwa [Int.floor_intCast] at this
  unfold roundHalfEven
  split_ifs with hf1 hf2 hf3
  · exact ⟨hfl, hfh⟩
  · refine ⟨by omega, ?_⟩
    have : ((⌊y⌋ : ℤ) : ℚ) + 1/2 < (hi : ℚ) := by linarith
    have : (⌊y⌋ : ℚ) < (hi : ℚ) := by linarith
    have : ⌊y⌋ < hi := by exact_mod_cast this
    omega
  · exact ⟨hfl, hfh⟩
  · refine ⟨by omega, ?_⟩
    have heq : y - (⌊y⌋ : ℚ) = 1/2 := le_antisymm (not_lt.mp hf2) (not_lt.mp hf1)
    have : (⌊y⌋ : ℚ) + 1/2 ≤ (hi : ℚ) := by linarith
    have : (⌊y⌋ : ℚ) < (hi : ℚ) := by linarith
    have : ⌊y⌋ < hi := by exact_mod_cast this
    omega

lemma to_half_close (x : ℚ) : |to_half x - x| ≤ 1/4 := by
  have h := roundHalfEven_close (x * 2)
  unfold to_half
  rw [abs_le] at h ⊢
  constructor <;> [linarith [h.1]; linarith [h.2]]

lemma to_half_bounds (x : ℚ) (lo hi : ℤ) (hlo : (lo : ℚ) ≤ x) (hhi : x ≤ (hi : ℚ)) :
    (lo : ℚ) ≤ to_half x ∧ to_half x ≤ (hi : ℚ) := by
  have h := roundHalfEven_bounds (x * 2) (2 * lo) (2 * hi)
    (by push_cast; linarith) (by push_cast; linarith)
  unfold to_half
  obtain ⟨ha, hb⟩ := h
  constructor
  · have : ((2 * lo : ℤ) : ℚ) ≤ (roundHalfEven (x * 2) : ℚ) := by exact_mod_cast ha
    push_cast at this
    linarith
  · have : ((roundHalfEven (x * 2) : ℤ) : ℚ) ≤ ((2 * hi : ℤ) : ℚ) := by exact_mod_cast hb
    push_cast at this
    linarith

lemma clamp19_bounds (x : ℚ) : (1 : ℚ) ≤ clamp x 1 9 ∧ clamp x 1 9 ≤ 9 := by
  unfold clamp
  constructor
  · exact le_max_left _ _
  · exact max_le (by norm_num) (min_le_left _ _)

lemma to_half_clamp19 (x : ℚ) : (1 : ℚ) ≤ to_half (clamp x 1 9) ∧ to_half (clamp x 1 9) ≤ 9 := by
  have h := clamp19_bounds x
  have := to_half_bounds (clamp x 1 9) 1 9 (by exact_mod_cast h.1) (by exact_mod_cast h.2)
  exact_mod_cast this

/-- C1: for every session and Part-1 base index, the follow-up prompt is
returned at most once: a too-short answer to an unmarked question id returns
the follow-up for the current index and leaves the cursor unchanged, and any
subsequent answer carrying the returned marker question id — whatever its
transcript or duration — is never answered with that follow-up again but
advances the cursor by exactly one. -/
theorem C1_part1_followup_once (sess : Session) (p₁ p₂ : Payload) (h1 : p₁.part = 1)
    (hshort : (findTokens (strTrim p₁.transcript)).length < 35 ∨ p₁.duration_ms < 12000)
    (hmark : strEndsWith p₁.question_id "_f" = false)
    (h2 : p₂.part = 1)
    (hq2 : p₂.question_id = "p1_" ++ toString sess.p1_idx ++ "_f") :
    (confirmSession sess p₁).2 =
      Response.nextQuestion 1 ("p1_" ++ toString sess.p1_idx ++ "_f") followUpText ∧
    (confirmSession sess p₁).1.p1_idx = sess.p1_idx ∧
    (confirmSession (confirmSession sess p₁).1 p₂).2 ≠
      Response.nextQuestion 1 ("p1_" ++ toString sess.p1_idx ++ "_f") followUpText ∧
    (confirmSession (confirmSession sess p₁).1 p₂).1.p1_idx = sess.p1_idx + 1 := by
  have hc1 : (((findTokens (strTrim p₁.transcript)).length < 35 ∨ p₁.duration_ms < 12000) ∧
      strEndsWith p₁.question_id "_f" = false) := ⟨hshort, hmark⟩
  have hstep1 : confirmSession sess p₁ =
      ({ sess with turns := sess.turns ++
          [⟨p₁.part, p₁.question_id, strTrim p₁.transcript, p₁.duration_ms⟩] },
        Response.nextQuestion 1 ("p1_" ++ toString sess.p1_idx ++ "_f") followUpText) := by
    simp only [confirmSession, h1, if_pos]
    rw [if_pos hc1]
  rw [hstep1]
  have hm2 : strEndsWith p₂.question_id "_f" = true := by
    rw [hq2, show ("p1_" ++ toString sess.p1_idx ++ "_f" : String) =
      ("p1_" ++ toString sess.p1_idx) ++ "_f" from rfl]
    exact strEndsWith_append_uf _
  refine ⟨rfl, rfl, ?_, ?_⟩
  · simp only [confirmSession, h2, if_pos, hm2]
    split
    · rename_i hcond
      exact absurd hcond.2 (by simp)
    · split
      · intro h
        exact p1_qid_ne _ _ (Response.nextQuestion.inj h).2.1
      · exact fun h => Response.noConfusion h
  · simp only [confirmSession, h2, if_pos, hm2]
    split
    · rename_i hcond
      exact absurd hcond.2 (by simp)
    · split <;> rfl

/-- C1 witness: the general theorem applied to a fresh session, a 2-word
3-second answer to `p1_0`, and a second short answer to the returned
`p1_0_f`. -/
theorem C1_part1_followup_once_witness :
    (((findTokens (strTrim pEx1.transcript)).length < 35 ∨ pEx1.duration_ms < 12000) ∧
      strEndsWith pEx1.question_id "_f" = false ∧
      pEx2.question_id = "p1_" ++ toString sessEx1.p1_idx ++ "_f") ∧
    ((confirmSession sessEx1 pEx1).2 =
      Response.nextQuestion 1 ("p1_" ++ toString sessEx1.p1_idx ++ "_f") followUpText ∧
    (confirmSession sessEx1 pEx1).1.p1_idx = sessEx1.p1_idx ∧
    (confirmSession (confirmSession sessEx1 pEx1).1 pEx2).2 ≠
      Response.nextQuestion 1 ("p1_" ++ toString sessEx1.p1_idx ++ "_f") followUpText ∧
    (confirmSession (confirmSession sessEx1 pEx1).1 pEx2).1.p1_idx = sessEx1.p1_idx + 1) :=
  ⟨⟨Or.inl (by decide), by decide, by decide⟩,
    C1_part1_followup_once sessEx1 pEx1 pEx2 rfl (Or.inl (by decide)) (by decide) rfl (by decide)⟩

/-- C2: on a Part-1 turn the engine returns the follow-up prompt for the
current index iff the transcript has fewer than 35 word tokens or the duration
is below 12000 ms and the incoming question id does not carry the `_f`
marker; otherwise it advances the Part-1 cursor by exactly one. -/
theorem C2_part1_followup_iff (sess : Session) (p : Payload) (hp : p.part = 1) :
    ((confirmSession sess p).2 =
        Response.nextQuestion 1 ("p1_" ++ toString sess.p1_idx ++ "_f") followUpText ↔
      (((findTokens (strTrim p.transcript)).length < 35 ∨ p.duration_ms < 12000) ∧
        strEndsWith p.question_id "_f" = false)) ∧
    (¬ (((findTokens (strTrim p.transcript)).length < 35 ∨ p.duration_ms < 12000) ∧
        strEndsWith p.question_id "_f" = false) →
      (confirmSession sess p).1.p1_idx = sess.p1_idx + 1) := by
  simp only [confirmSession, hp, if_pos]
  by_cases hc : (((findTokens (strTrim p.transcript)).length < 35 ∨ p.duration_ms < 12000) ∧
      strEndsWith p.question_id "_f" = false)
  · rw [if_pos hc]
    exact ⟨⟨fun _ => hc, fun _ => rfl⟩, fun h => absurd hc h⟩
  · rw [if_neg hc]
    constructor
    · constructor
      · intro h
        exfalso
        split at h
        · exact p1_qid_ne _ _ (Response.nextQuestion.inj h).2.1
        · exact Response.noConfusion h
      · intro h
        exact absurd h hc
    · intro _
      split <;> rfl

/-- C2 witness: the iff and the advancement rule evaluated on a fresh session
and a concrete too-short Part-1 answer. -/
theorem C2_part1_followup_iff_witness :
    pEx1.part = 1 ∧
    (((confirmSession sessEx1 pEx1).2 =
        Response.nextQuestion 1 ("p1_" ++ toString sessEx1.p1_idx ++ "_f") followUpText ↔
      (((findTokens (strTrim pEx1.transcript)).length < 35 ∨ pEx1.duration_ms < 12000) ∧
        strEndsWith pEx1.question_id "_f" = false)) ∧
    (¬ (((findTokens (strTrim pEx1.transcript)).length < 35 ∨ pEx1.duration_ms < 12000) ∧
        strEndsWith pEx1.question_id "_f" = false) →
      (confirmSession sessEx1 pEx1).1.p1_idx = sessEx1.p1_idx + 1)) :=
  ⟨rfl, C2_part1_followup_iff sessEx1 pEx1 rfl⟩

/-- C3 counterexample: the claim "the stored `part` value never decreases for
any client-supplied inputs" is false: replaying a Part-1 payload with an
exhausted Part-1 cursor against a session already in Part 3 drives the stored
`part` from 3 back to 2. -/
theorem C3_part_decrease_counterexample :
    Session.part sessEx3 = 3 ∧ (confirmSession sessEx3 pEx3).1.part = 2 := by
  exact ⟨rfl, by decide⟩

/-- C3 (amended): for protocol-compliant confirms — those whose supplied
`part` equals the session's current `part`, as a client following the
returned prompts always sends — the stored `part` never decreases. -/
theorem C3_part_monotone_protocol (sess : Session) (p : Payload)
    (hp : p.part = sess.part) :
    sess.part ≤ (confirmSession sess p).1.part := by
  simp only [confirmSession]
  repeat' split
  all_goals simp_all
  all_goals omega

/-- C3 witness: monotonicity evaluated on a fresh Part-1 session and a
matching Part-1 payload. -/
theorem C3_part_monotone_protocol_witness :
    pEx1.part = Session.part sessEx1 ∧
    Session.part sessEx1 ≤ (confirmSession sessEx1 pEx1).1.part :=
  ⟨rfl, C3_part_monotone_protocol sessEx1 pEx1 rfl⟩

/-- C4: keyword extraction is a function of the input text alone; on
"markets markets traffic traffic traffic city" with k = 2 it returns exactly
["traffic", "markets"] (frequency descending, then alphabetical), and it
never returns more than k keywords. -/
theorem C4_keyword_extraction :
    extract_keywords "markets markets traffic traffic traffic city" 2 =
      ["traffic", "markets"] ∧
    (∀ (text : String) (k : ℕ), (extract_keywords text k).length ≤ k) := by
  refine ⟨by decide, ?_⟩
  intro text k
  simp only [extract_keywords, List.length_map]
  exact le_trans (List.length_take_le _ _) (le_refl _)

/-- C5: `to_half` realises rounding to the nearest multiple of 0.5 (within
1/4, always hitting a half-integer), maps 7.24 to 7.0 and 7.26 to 7.5, each
reported band is `to_half` of its clamped raw formula, and all five reported
bands lie in [1, 9]. -/
theorem C5_band_rounding :
    (∀ x : ℚ, |to_half x - x| ≤ 1/4 ∧ ∃ n : ℤ, to_half x = (n : ℚ)/2) ∧
    to_half (724/100) = 7 ∧ to_half (726/100) = 15/2 ∧
    (∀ (m : Metrics) (ac rs : ℚ),
      (bands_from_metrics m ac rs).fluency =
        to_half (clamp (9 - (Metrics.pause_rate m * 3 + Metrics.filler_ratio m * 4)) 1 9) ∧
      (1 ≤ (bands_from_metrics m ac rs).fluency ∧ (bands_from_metrics m ac rs).fluency ≤ 9) ∧
      (1 ≤ (bands_from_metrics m ac rs).lexical_resource ∧
        (bands_from_metrics m ac rs).lexical_resource ≤ 9) ∧
      (1 ≤ (bands_from_metrics m ac rs).grammar_range_accuracy ∧
        (bands_from_metrics m ac rs).grammar_range_accuracy ≤ 9) ∧
      (1 ≤ (bands_from_metrics m ac rs).pronunciation ∧
        (bands_from_metrics m ac rs).pronunciation ≤ 9) ∧
      (1 ≤ (bands_from_metrics m ac rs).overall ∧ (bands_from_metrics m ac rs).overall ≤ 9)) := by
  refine ⟨fun x => ⟨to_half_close x, ⟨roundHalfEven (x * 2), rfl⟩⟩,
    by norm_num [to_half, roundHalfEven], by norm_num [to_half, roundHalfEven], ?_⟩
  intro m ac rs
  have hf : (bands_from_metrics m ac rs).fluency =
      to_half (clamp (9 - (Metrics.pause_rate m * 3 + Metrics.filler_ratio m * 4)) 1 9) := rfl
  have hl : (bands_from_metrics m ac rs).lexical_resource =
      to_half (clamp (5 + Metrics.ttr m * 6 - Metrics.repetition m * 2) 1 9) := rfl
  have hg : (bands_from_metrics m ac rs).grammar_range_accuracy =
      to_half (clamp (6 - Metrics.grammar_err_rate m * 8 + Metrics.clause_variety m * 2) 1 9) := rfl
  have hp : (bands_from_metrics m ac rs).pronunciation =
      to_half (clamp (5 + ac * 3 + rs * 2) 1 9) := rfl
  have ho : (bands_from_metrics m ac rs).overall =
      to_half (((bands_from_metrics m ac rs).fluency +
        (bands_from_metrics m ac rs).lexical_resource +
        (bands_from_metrics m ac rs).grammar_range_accuracy +
        (bands_from_metrics m ac rs).pronunciation) / 4) := rfl
  have bf := to_half_clamp19 (9 - (Metrics.pause_rate m * 3 + Metrics.filler_ratio m * 4))
  have bl := to_half_clamp19 (5 + Metrics.ttr m * 6 - Metrics.repetition m * 2)
  have bg := to_half_clamp19 (6 - Metrics.grammar_err_rate m * 8 + Metrics.clause_variety m * 2)
  have bp := to_half_clamp19 (5 + ac * 3 + rs * 2)
  have hob : (1 : ℚ) ≤ (bands_from_metrics m ac rs).overall ∧
      (bands_from_metrics m ac rs).overall ≤ 9 := by
    rw [ho, hf, hl, hg, hp]
    have := to_half_bounds
      ((to_half (clamp (9 - (Metrics.pause_rate m * 3 + Metrics.filler_ratio m * 4)) 1 9) +
        to_half (clamp (5 + Metrics.ttr m * 6 - Metrics.repetition m * 2) 1 9) +
        to_half (clamp (6 - Metrics.grammar_err_rate m * 8 + Metrics.clause_variety m * 2) 1 9) +
        to_half (clamp (5 + ac * 3 + rs * 2) 1 9)) / 4) 1 9
      (by push_cast; linarith [bf.1, bl.1, bg.1, bp.1])
      (by push_cast; linarith [bf.2, bl.2, bg.2, bp.2])
    exact_mod_cast this
  refine ⟨hf, ⟨?_, ?_⟩, ⟨?_, ?_⟩, ⟨?_, ?_⟩, ⟨?_, ?_⟩, hob⟩
  · rw [hf]; exact bf.1
  · rw [hf]; exact bf.2
  · rw [hl]; exact bl.1
  · rw [hl]; exact bl.2
  · rw [hg]; exact bg.1
  · rw [hg]; exact bg.2
  · rw [hp]; exact bp.1
  · rw [hp]; exact bp.2

/-- C6: the overall band is `to_half` of the arithmetic mean of the four
already-rounded bands, and for rounded bands 7.0, 6.5, 8.0, 6.0 the overall
is 7.0. -/
theorem C6_overall_rounded_mean :
    (∀ (m : Metrics) (ac rs : ℚ),
      (bands_from_metrics m ac rs).overall =
        to_half (((bands_from_metrics m ac rs).fluency +
          (bands_from_metrics m ac rs).lexical_resource +
          (bands_from_metrics m ac rs).grammar_range_accuracy +
          (bands_from_metrics m ac rs).pronunciation) / 4)) ∧
    to_half ((7 + 13/2 + 8 + 6) / 4) = 7 := by
  refine ⟨fun m ac rs => rfl, ?_⟩
  norm_num [to_half, roundHalfEven]

/-- C7: the metric computation is total — both time denominators are floored
to a positive epsilon for every input — and the empty transcript with zero
speech time yields wpm = 0 and a well-defined ttr (indeed every metric is 0). -/
theorem C7_metric_floors :
    (∀ s : ℤ, 0 < minutesFloor s) ∧
    (∀ s p : ℤ, 0 < timeTotalFloor s p) ∧
    metrics_from_text_and_times "" 0 0 =
      { wpm := 0, filler_ratio := 0, pause_rate := 0, ttr := 0, repetition := 0,
        grammar_err_rate := 0, clause_variety := 0 } := by
  refine ⟨?_, ?_, ?_⟩
  · intro s
    exact lt_max_of_lt_left (by norm_num)
  · intro s p
    exact lt_max_of_lt_left (by norm_num)
  · have h1 : (metrics_from_text_and_times "" 0 0).wpm = ((0 : ℕ) : ℚ) / minutesFloor 0 := rfl
    have h2 : Metrics.filler_ratio (metrics_from_text_and_times "" 0 0) =
        min 1 (((0 : ℕ) : ℚ) / ((1 : ℕ) : ℚ)) := rfl
    have h3 : (metrics_from_text_and_times "" 0 0).pause_rate =
        min 1 (((0 : ℤ) : ℚ) / timeTotalFloor 0 0) := rfl
    have h4 : (metrics_from_text_and_times "" 0 0).ttr =
        min 1 (((0 : ℕ) : ℚ) / ((1 : ℕ) : ℚ)) := rfl
    have h5 : (metrics_from_text_and_times "" 0 0).repetition = min 1 (0 : ℚ) := rfl
    have h6 : (metrics_from_text_and_times "" 0 0).grammar_err_rate =
        min 1 (((0 : ℕ) : ℚ) / ((1 : ℕ) : ℚ)) := rfl
    have h7 : (metrics_from_text_and_times "" 0 0).clause_variety =
        ((0 : ℕ) : ℚ) / ((1 : ℕ) : ℚ) := rfl
    ext <;> simp_all

/-- C8: confirm and finish with an unknown session id return the
distinguishable "session not found" error and leave the store untouched; no
successful engine step ever produces that error response. -/
theorem C8_session_not_found (store : Store) (p : Payload) (sid : String)
    (hc : store p.session_id = none) (hf : store sid = none) :
    transcript_confirm store p = (store, Response.sessionNotFound) ∧
    session_finish store sid = (store, Response.sessionNotFound) ∧
    (∀ (sess : Session) (q : Payload),
      Response.isNotFoundError (confirmSession sess q).2 = false) := by
  refine ⟨?_, ?_, ?_⟩
  · unfold transcript_confirm
    rw [hc]
  · unfold session_finish
    rw [hf]
  · intro sess q
    simp only [confirmSession]
    repeat' split
    all_goals rfl

/-- C8 witness: the not-found behaviour evaluated on the empty store. -/
theorem C8_session_not_found_witness :
    storeEmpty pEx1.session_id = none ∧
    transcript_confirm storeEmpty pEx1 = (storeEmpty, Response.sessionNotFound) ∧
    session_finish storeEmpty "s1" = (storeEmpty, Response.sessionNotFound) ∧
    (∀ (sess : Session) (q : Payload),
      Response.isNotFoundError (confirmSession sess q).2 = false) :=
  ⟨rfl, C8_session_not_found storeEmpty pEx1 "s1" rfl rfl⟩

/-- C9 counterexample: the follow-up prompt the engine actually returns reads
"why is it important to you in your daily life?", not the claimed "important
to life in your daily life?". -/
theorem C9_followup_text_counterexample :
    (confirmSession sessEx1 pEx1).2 = Response.nextQuestion 1 "p1_0_f" followUpText ∧
    followUpText ≠ "Could you tell me a bit more about that? For example, why is it important to life in your daily life?" := by
  exact ⟨by decide, by decide⟩

/-- C9 (amended): whenever the Part-1 follow-up prompt is returned, its text
is exactly "Could you tell me a bit more about that? For example, why is it
important to you in your daily life?", for every session and every index. -/
theorem C9_followup_text_amended (sess : Session) (p : Payload) (hp : p.part = 1)
    (hshort : (findTokens (strTrim p.transcript)).length < 35 ∨ p.duration_ms < 12000)
    (hmark : strEndsWith p.question_id "_f" = false) :
    (confirmSession sess p).2 =
      Response.nextQuestion 1 ("p1_" ++ toString sess.p1_idx ++ "_f") followUpText := by
  simp only [confirmSession, hp, if_pos]
  rw [if_pos ⟨hshort, hmark⟩]

/-- C9 witness: the amended statement evaluated on a fresh session and a
concrete too-short answer. -/
theorem C9_followup_text_amended_witness :
    (((findTokens (strTrim pEx1.transcript)).length < 35 ∨ pEx1.duration_ms < 12000) ∧
      strEndsWith pEx1.question_id "_f" = false) ∧
    (confirmSession sessEx1 pEx1).2 =
      Response.nextQuestion 1 ("p1_" ++ toString sessEx1.p1_idx ++ "_f") followUpText :=
  ⟨⟨Or.inl (by decide), by decide⟩,
    C9_followup_text_amended sessEx1 pEx1 rfl (Or.inl (by decide)) (by decide)⟩

/-- C10: the finished result's pronunciation band is always exactly 8.5: the
scoring engine is invoked with the constants asr_conf = rate_stability = 0.7,
so pronunciation = to_half(clamp(5 + 0.7*3 + 0.7*2, 1, 9)) = 8.5 for every
session and every turn history. -/
theorem C10_pronunciation_constant :
    (∀ sess : Session, (finishResultOf sess).pronunciation = 17/2) ∧
    (∀ m : Metrics, (bands_from_metrics m (7/10) (7/10)).pronunciation = 17/2) := by
  constructor
  · intro sess
    have h : (finishResultOf sess).pronunciation =
        to_half (clamp (5 + (7 : ℚ)/10 * 3 + 7/10 * 2) 1 9) := rfl
    rw [h]
    norm_num [to_half, roundHalfEven, clamp]
  · intro m
    have h : (bands_from_metrics m (7/10) (7/10)).pronunciation =
        to_half (clamp (5 + (7 : ℚ)/10 * 3 + 7/10 * 2) 1 9) := rfl
    rw [h]
    norm_num [to_half, roundHalfEven, clamp]
